import Mathlib

/-!
Shallow embedding of the tanita-601 repository (a Rust reader for Tanita
scale CSV exports) and verification of the frozen claims about it.

The embedding follows the source files:
  src/src/application/parser.rs              (primitive parsers, record
                                              decoders, file pairer)
  src/src/application/general_data_structs.rs (Date, Time, DateTime, Gender)
  src/src/application.rs                     (Profile, Measurement,
                                              UserMeasurements)

Modelling conventions:
  - Rust u8/u16/usize values are Nat (parsers enforce the range bounds
    exactly as Rust overflow checking does).
  - Rust f32 values are represented exactly as rationals; only the
    success/failure behaviour of float parsing matters to the claims.
  - A Rust panic (slice index out of bounds, `.unwrap()` on None/Err,
    `BTreeMap` indexing with a missing key, explicit `panic!`) is modelled
    as `none`: a function that can panic returns an `Option`.
  - The filesystem seen by the pairer is modelled as a `RootDir` value:
    a list of subdirectories, each a list of (file name, file content).
-/

namespace Tanita

/-! ### Character-list string utilities

Kernel-reducible replacements for the std string routines the source uses,
so concrete witnesses can be checked by `decide`/`rfl`. -/

/-- Split a character list at every occurrence of `sep`, keeping empty
segments — the semantics of Rust `str::split(char)`. -/
def splitOnChar (sep : Char) : List Char → List (List Char)
  | [] => [[]]
  | c :: rest =>
      let r := splitOnChar sep rest
      if c = sep then [] :: r
      else
        match r with
        | [] => [[c]]
        | g :: gs => (c :: g) :: gs

/-- Rust `str::split(sep)` for a single-character separator. -/
def splitStr (sep : Char) (s : String) : List String :=
  (splitOnChar sep s.data).map (fun g => String.mk g)

/-- `row.split(',')` as used by both record decoders. -/
def splitCSV (row : String) : List String := splitStr ',' row

/-- Rust `str::trim`: drop leading and trailing whitespace characters. -/
def rustTrim (s : String) : String :=
  String.mk (((s.data.dropWhile Char.isWhitespace).reverse.dropWhile
    Char.isWhitespace).reverse)

/-- Rust `str::trim_matches('"')`: drop every leading and trailing
double-quote character. -/
def trimMatchesQuote (s : String) : String :=
  String.mk (((s.data.dropWhile (fun c => c = '"')).reverse.dropWhile
    (fun c => c = '"')).reverse)

/-- Rust `str::strip_prefix(pre)`. -/
def stripPfx (pre s : String) : Option String :=
  if pre.data.isPrefixOf s.data then some (String.mk (s.data.drop pre.data.length))
  else none

/-- Rust `str::strip_suffix(suf)`. -/
def stripSfx (suf s : String) : Option String :=
  if suf.data.isSuffixOf s.data then
    some (String.mk (s.data.take (s.data.length - suf.data.length)))
  else none

/-- Rust `u8::to_ascii_uppercase` on one character. -/
def asciiUpperChar (c : Char) : Char :=
  if 'a' ≤ c ∧ c ≤ 'z' then Char.ofNat (c.toNat - 32) else c

/-- Rust `str::to_ascii_uppercase`. -/
def asciiUppercase (s : String) : String :=
  String.mk (s.data.map asciiUpperChar)

/-- Rust `str::lines`: split at newline characters, strip a carriage
return that preceded a newline, and drop a trailing empty final segment. -/
def rustLines (s : String) : List String :=
  let parts := splitStr '\n' s
  let strip := fun (l : String) =>
    if l.data.getLast? = some '\r' then String.mk l.data.dropLast else l
  let front := parts.dropLast.map strip
  match parts.getLast? with
  | some (String.mk []) => front
  | some last => front ++ [last]
  | none => front

/-! ### Primitive value parsers (parser.rs, `impl TanitaParser`) -/

/-- The numeric value of a run of ASCII digits. -/
def digitsToNat (cs : List Char) : Nat :=
  cs.foldl (fun n c => n * 10 + (c.toNat - 48)) 0

/-- Rust unsigned-integer parsing (`str::parse::<uN>` before the range
check): an optional leading plus sign followed by one or more ASCII
digits, rejecting anything else. -/
def parseDigits? (s : String) : Option Nat :=
  let cs := match s.data with
    | '+' :: rest => rest
    | cs => cs
  if cs = [] then none
  else if cs.all Char.isDigit then some (digitsToNat cs)
  else none

/-- `str::parse::<u8>`. -/
def parseU8? (s : String) : Option Nat :=
  (parseDigits? s).bind (fun n => if n < 256 then some n else none)

/-- `str::parse::<u16>`. -/
def parseU16? (s : String) : Option Nat :=
  (parseDigits? s).bind (fun n => if n < 65536 then some n else none)

/-- `str::parse::<usize>` on a 64-bit target. -/
def parseUsize? (s : String) : Option Nat :=
  (parseDigits? s).bind (fun n => if n < 2 ^ 64 then some n else none)

/-- Leading sign of a numeric literal: `(sign, remaining characters)`. -/
def takeSign : List Char → Int × List Char
  | '+' :: rest => (1, rest)
  | '-' :: rest => (-1, rest)
  | cs => (1, cs)

/-- Split a character list at the first exponent marker `e`/`E`. -/
def splitAtExp : List Char → List Char × Option (List Char)
  | [] => ([], none)
  | c :: rest =>
      if c = 'e' ∨ c = 'E' then ([], some rest)
      else
        let (m, e) := splitAtExp rest
        (c :: m, e)

/-- Decimal mantissa `digits`, `digits.digits`, `digits.` or `.digits`,
valued exactly as a rational. -/
def parseMantissa? (cs : List Char) : Option ℚ :=
  let intPart := cs.takeWhile Char.isDigit
  let rest := cs.dropWhile Char.isDigit
  match rest with
  | [] => if intPart = [] then none else some (digitsToNat intPart)
  | '.' :: frac =>
      if frac.all Char.isDigit ∧ (intPart ≠ [] ∨ frac ≠ []) then
        some ((digitsToNat intPart : ℚ) + (digitsToNat frac : ℚ) / (10 ^ frac.length))
      else none
  | _ => none

/-- Model of `str::parse::<f32>` restricted to the finite decimal forms
(sign, digits, optional fraction, optional exponent) that the device files
use; the special forms inf and nan are outside the inputs considered, and
values are represented exactly as rationals rather than rounded. -/
def parseF32? (s : String) : Option ℚ :=
  let (sgn, cs) := takeSign s.data
  let (mant, expPart) := splitAtExp cs
  match parseMantissa? mant with
  | none => none
  | some m =>
      match expPart with
      | none => some ((sgn : ℚ) * m)
      | some ecs =>
          let (esgn, eds) := takeSign ecs
          if eds ≠ [] ∧ eds.all Char.isDigit then
            some ((sgn : ℚ) * m * (10 : ℚ) ^ (esgn * (digitsToNat eds : Int)))
          else none

namespace TanitaParser

/-- `TanitaParser::parse_u8`: zero on failure, never fails outward. -/
def parse_u8 (s : String) : Nat := (parseU8? s).getD 0

/-- `TanitaParser::parse_u16`: zero on failure, never fails outward. -/
def parse_u16 (s : String) : Nat := (parseU16? s).getD 0

/-- `TanitaParser::parse_f32`: zero on failure, never fails outward. -/
def parse_f32 (s : String) : ℚ := (parseF32? s).getD 0

/-- `TanitaParser::unquote`: trim, then strip one leading and one trailing
double quote when both are present. -/
def unquote (s : String) : String :=
  let t := rustTrim s
  match t.data with
  | '"' :: rest =>
      match rest.getLast? with
      | some '"' => String.mk rest.dropLast
      | _ => t
  | _ => t

end TanitaParser

/-! ### Raw record decoders (parser.rs, `ProfRaw` and `DataRaw`) -/

/-- `ProfRaw` (parser.rs): permissively decoded profile record; the field
defaults are those of the Rust `Default` derive. -/
structure ProfRaw where
  model : String := ""
  birth_date_dmy : String := ""
  body_type_code : Nat := 0
  gender_code : Nat := 0
  height_cm : ℚ := 0
  activity_level_code : Nat := 0
  checksum : String := ""
deriving Repr, DecidableEq

/-- One iteration of the `ProfRaw::from_csv_row` key dispatch, in source
order; unknown keys are logged and ignored. -/
def ProfRaw.applyKV (key value : String) (p : ProfRaw) : ProfRaw :=
  if key = "MO" then { p with model := TanitaParser.unquote value }
  else if key = "DB" then { p with birth_date_dmy := TanitaParser.unquote value }
  else if key = "Bt" then { p with body_type_code := TanitaParser.parse_u8 value }
  else if key = "GE" then { p with gender_code := TanitaParser.parse_u8 value }
  else if key = "Hm" then { p with height_cm := TanitaParser.parse_f32 value }
  else if key = "AL" then { p with activity_level_code := TanitaParser.parse_u8 value }
  else if key = "CS" then { p with checksum := TanitaParser.unquote value }
  else p

/-- The `while key_pointer < data_entries.len()` walk of
`ProfRaw::from_csv_row`.  On a single leftover token the source reads
`data_entries[key_pointer + 1]`, one past the end of the slice — an
out-of-bounds panic, modelled as `none`. -/
def ProfRaw.decodeTokens : List String → ProfRaw → Option ProfRaw
  | [], p => some p
  | [_], _ => none
  | k :: v :: rest, p => ProfRaw.decodeTokens rest (ProfRaw.applyKV k v p)

/-- `ProfRaw::from_csv_row`. -/
def ProfRaw.from_csv_row (row : String) : Option ProfRaw :=
  ProfRaw.decodeTokens (splitCSV row) {}

/-- `DataRaw` (parser.rs): permissively decoded measurement record.
Optional fields are `none` until their tag is seen; the field defaults are
those of the Rust `Default` derive. -/
structure DataRaw where
  model : String := ""
  date_dmy : String := ""
  time_hms : String := ""
  gender_code : Nat := 0
  age_years : Nat := 0
  height_cm : ℚ := 0
  activity_level_code : Nat := 0
  body_type_code : Nat := 0
  weight_kg : ℚ := 0
  bmi : ℚ := 0
  fat_percent : ℚ := 0
  fat_right_arm_pct : ℚ := 0
  fat_left_arm_pct : ℚ := 0
  fat_right_leg_pct : ℚ := 0
  fat_left_leg_pct : ℚ := 0
  fat_trunk_pct : ℚ := 0
  muscle_percent : Option ℚ := none
  muscle_right_arm_pct : Option ℚ := none
  muscle_left_arm_pct : Option ℚ := none
  muscle_right_leg_pct : Option ℚ := none
  muscle_left_leg_pct : Option ℚ := none
  muscle_trunk_pct : Option ℚ := none
  bone_kg : Option ℚ := none
  water_percent : Option ℚ := none
  visceral_fat_rating : Option Nat := none
  metabolic_age_years : Option Nat := none
  daily_calorie_intake_kcal : Option Nat := none
  checksum : String := ""
  extras : List (String × String) := []
deriving Repr, DecidableEq

/-- One iteration of the `DataRaw::from_csv_row` key dispatch, in source
order; unknown key/value pairs are appended to `extras`. -/
def DataRaw.applyKV (key value : String) (a : DataRaw) : DataRaw :=
  if key = "MO" then { a with model := TanitaParser.unquote value }
  else if key = "DT" then { a with date_dmy := TanitaParser.unquote value }
  else if key = "Ti" then { a with time_hms := TanitaParser.unquote value }
  else if key = "GE" then { a with gender_code := TanitaParser.parse_u8 value }
  else if key = "AG" then { a with age_years := TanitaParser.parse_u8 value }
  else if key = "Hm" then { a with height_cm := TanitaParser.parse_f32 value }
  else if key = "AL" then { a with activity_level_code := TanitaParser.parse_u8 value }
  else if key = "Bt" then { a with body_type_code := TanitaParser.parse_u8 value }
  else if key = "Wk" then { a with weight_kg := TanitaParser.parse_f32 value }
  else if key = "MI" then { a with bmi := TanitaParser.parse_f32 value }
  else if key = "FW" then { a with fat_percent := TanitaParser.parse_f32 value }
  else if key = "Fr" then { a with fat_right_arm_pct := TanitaParser.parse_f32 value }
  else if key = "Fl" then { a with fat_left_arm_pct := TanitaParser.parse_f32 value }
  else if key = "FR" then { a with fat_right_leg_pct := TanitaParser.parse_f32 value }
  else if key = "FL" then { a with fat_left_leg_pct := TanitaParser.parse_f32 value }
  else if key = "FT" then { a with fat_trunk_pct := TanitaParser.parse_f32 value }
  else if key = "mW" then { a with muscle_percent := some (TanitaParser.parse_f32 value) }
  else if key = "ml" then { a with muscle_left_arm_pct := some (TanitaParser.parse_f32 value) }
  else if key = "mr" then { a with muscle_right_arm_pct := some (TanitaParser.parse_f32 value) }
  else if key = "mR" then { a with muscle_right_leg_pct := some (TanitaParser.parse_f32 value) }
  else if key = "mL" then { a with muscle_left_leg_pct := some (TanitaParser.parse_f32 value) }
  else if key = "mT" then { a with muscle_trunk_pct := some (TanitaParser.parse_f32 value) }
  else if key = "bw" then { a with bone_kg := some (TanitaParser.parse_f32 value) }
  else if key = "ww" then { a with water_percent := some (TanitaParser.parse_f32 value) }
  else if key = "IF" then { a with visceral_fat_rating := some (TanitaParser.parse_u8 value) }
  else if key = "rA" then { a with metabolic_age_years := some (TanitaParser.parse_u8 value) }
  else if key = "rD" then { a with daily_calorie_intake_kcal := some (TanitaParser.parse_u16 value) }
  else if key = "CS" then { a with checksum := TanitaParser.unquote value }
  else { a with extras := a.extras ++ [(key, value)] }

/-- The `while key_pointer < data_entries.len()` walk of
`DataRaw::from_csv_row`; as for `ProfRaw`, a dangling final token makes
the source index one past the end of the slice, modelled as `none`. -/
def DataRaw.decodeTokens : List String → DataRaw → Option DataRaw
  | [], a => some a
  | [_], _ => none
  | k :: v :: rest, a => DataRaw.decodeTokens rest (DataRaw.applyKV k v a)

/-- `DataRaw::from_csv_row`. -/
def DataRaw.from_csv_row (row : String) : Option DataRaw :=
  DataRaw.decodeTokens (splitCSV row) {}

/-- The key/value pairs the decoders read from a token list: tokens are
taken two at a time, so keys are the tokens at even positions. -/
def pairsOf : List String → List (String × String)
  | [] => []
  | [_] => []
  | k :: v :: rest => (k, v) :: pairsOf rest

/-- Replay a list of key/value pairs through the `DataRaw` dispatch. -/
def applyPairsD (ps : List (String × String)) (a : DataRaw) : DataRaw :=
  ps.foldl (fun acc kv => DataRaw.applyKV kv.1 kv.2 acc) a

/-- The tokens of a row that the decoder reads as keys. -/
def rowKeys (row : String) : List String :=
  (pairsOf (splitCSV row)).map Prod.fst

/-! ### General data structures (general_data_structs.rs) -/

/-- `Date { years: u16, months: u8, days: u8 }`. -/
structure Date where
  years : Nat
  months : Nat
  days : Nat
deriving Repr, DecidableEq

/-- `Date::from_string`: strip surrounding quotes, split on `/`, require
exactly three components, parse them as day (u8), month (u8), year (u16). -/
def Date.from_string (date_dmy : String) : Option Date :=
  match splitStr '/' (trimMatchesQuote date_dmy) with
  | [d, m, y] =>
      match parseU8? d, parseU8? m, parseU16? y with
      | some days, some months, some years => some ⟨years, months, days⟩
      | _, _, _ => none
  | _ => none

/-- `Date::to_srting` (sic): formats `years/months/days`. -/
def Date.to_srting (d : Date) : String :=
  toString d.years ++ "/" ++ toString d.months ++ "/" ++ toString d.days

/-- `Time { hours: u8, minutes: u8, seconds: u8 }`. -/
structure Time where
  hours : Nat
  minutes : Nat
  seconds : Nat
deriving Repr, DecidableEq

/-- `Time::from_string`: strip surrounding quotes, split on `:`, require
exactly three components, parse each as u8. -/
def Time.from_string (time_hms : String) : Option Time :=
  match splitStr ':' (trimMatchesQuote time_hms) with
  | [h, m, s] =>
      match parseU8? h, parseU8? m, parseU8? s with
      | some hours, some minutes, some seconds => some ⟨hours, minutes, seconds⟩
      | _, _, _ => none
  | _ => none

/-- `Time::to_srting` (sic): formats `hours:minutes:seconds`. -/
def Time.to_srting (t : Time) : String :=
  toString t.hours ++ ":" ++ toString t.minutes ++ ":" ++ toString t.seconds

/-- `DateTime { date, time }`. -/
structure DateTime where
  date : Date
  time : Time
deriving Repr, DecidableEq

/-- `DateTime::from_string`: both the date and the time must parse. -/
def DateTime.from_string (date_dmy time_hms : String) : Option DateTime :=
  match Date.from_string date_dmy, Time.from_string time_hms with
  | some date, some time => some ⟨date, time⟩
  | _, _ => none

/-- `Gender`: total over every u8 code. -/
inductive Gender where
  | Male : Gender
  | Female : Gender
  | Other : Nat → Gender
deriving Repr, DecidableEq

/-- `impl From<u8> for Gender`: 1 is Male, 2 is Female, anything else is
Other(code). -/
def Gender.fromCode (code : Nat) : Gender :=
  if code = 1 then Gender.Male
  else if code = 2 then Gender.Female
  else Gender.Other code

/-! ### Validated domain model (application.rs) -/

/-- `Profile` (application.rs). -/
structure Profile where
  birth_date_dmy : Date
  gender : Gender
  height_cm : ℚ
  activity_level_code : Nat
  body_type_code : Nat
deriving Repr, DecidableEq

/-- `Profile::from_raw`: fails exactly when the raw birth-date string does
not parse. -/
def Profile.from_raw (raw : ProfRaw) : Option Profile :=
  (Date.from_string raw.birth_date_dmy).map (fun date =>
    { birth_date_dmy := date
      body_type_code := raw.body_type_code
      activity_level_code := raw.activity_level_code
      height_cm := raw.height_cm
      gender := Gender.fromCode raw.gender_code })

/-- `Measurement` (application.rs). -/
structure Measurement where
  date_time : DateTime
  age_years : Nat
  activity_level_code : Nat
  body_type_code : Nat
  weight_kg : ℚ
  bmi : ℚ
  fat_percent : ℚ
  fat_right_arm_pct : ℚ
  fat_left_arm_pct : ℚ
  fat_right_leg_pct : ℚ
  fat_left_leg_pct : ℚ
  fat_trunk_pct : ℚ
  muscle_percent : Option ℚ
  muscle_right_arm_pct : Option ℚ
  muscle_left_arm_pct : Option ℚ
  muscle_right_leg_pct : Option ℚ
  muscle_left_leg_pct : Option ℚ
  muscle_trunk_pct : Option ℚ
  bone_kg : Option ℚ
  water_percent : Option ℚ
  visceral_fat_rating : Option Nat
  metabolic_age_years : Option Nat
  daily_calorie_intake_kcal : Option Nat
deriving Repr, DecidableEq

/-- `Measurement::from_raw`: fails exactly when the raw date/time strings
do not both parse; every other field is carried through unchanged. -/
def Measurement.from_raw (raw : DataRaw) : Option Measurement :=
  (DateTime.from_string raw.date_dmy raw.time_hms).map (fun date_time =>
    { date_time
      activity_level_code := raw.activity_level_code
      body_type_code := raw.body_type_code
      daily_calorie_intake_kcal := raw.daily_calorie_intake_kcal
      metabolic_age_years := raw.metabolic_age_years
      visceral_fat_rating := raw.visceral_fat_rating
      water_percent := raw.water_percent
      bone_kg := raw.bone_kg
      muscle_trunk_pct := raw.muscle_trunk_pct
      muscle_left_leg_pct := raw.muscle_left_leg_pct
      muscle_right_leg_pct := raw.muscle_right_leg_pct
      muscle_right_arm_pct := raw.muscle_right_arm_pct
      muscle_left_arm_pct := raw.muscle_left_arm_pct
      muscle_percent := raw.muscle_percent
      fat_trunk_pct := raw.fat_trunk_pct
      fat_left_leg_pct := raw.fat_left_leg_pct
      fat_right_leg_pct := raw.fat_right_leg_pct
      fat_left_arm_pct := raw.fat_left_arm_pct
      fat_right_arm_pct := raw.fat_right_arm_pct
      fat_percent := raw.fat_percent
      bmi := raw.bmi
      weight_kg := raw.weight_kg
      age_years := raw.age_years })

/-- `RawUserRecord` (parser.rs). -/
structure RawUserRecord where
  index : Nat
  profile : ProfRaw
  data : List DataRaw
deriving Repr, DecidableEq

/-- `UserMeasurements` (application.rs). -/
structure UserMeasurements where
  index : Nat
  profile : Profile
  measurements : List Measurement
deriving Repr, DecidableEq

/-- The measurement loop of `UserMeasurements::from_raw`: a record whose
conversion fails is logged and skipped, the rest are kept in order. -/
def buildMeasurements : List DataRaw → List Measurement
  | [] => []
  | d :: rest =>
      match Measurement.from_raw d with
      | some m => m :: buildMeasurements rest
      | none => buildMeasurements rest

/-- `UserMeasurements::from_raw`.  The source calls
`Profile::from_raw(raw.profile).unwrap()`: an unparseable profile is an
unconditional panic, modelled as `none`. -/
def UserMeasurements.from_raw (raw : RawUserRecord) : Option UserMeasurements :=
  (Profile.from_raw raw.profile).map (fun profile =>
    { index := raw.index
      profile
      measurements := buildMeasurements raw.data })

/-! ### File pairer (parser.rs, `TanitaParser`)

The filesystem under the chosen root is modelled as a list of
subdirectories, each carrying its listing of (file name, file content)
entries in directory-iteration order.  Reading a listed file back is
modelled as returning its stored content (the source's
`fs::read_to_string(..).unwrap()` on a just-listed path). -/

/-- A directory entry: (file name, file content). -/
abbrev FileEntry := String × String

/-- The chosen root directory. -/
structure RootDir where
  subdirs : List (String × List FileEntry)
deriving Repr, DecidableEq

/-- Does the root contain a subdirectory of this name, and with which
listing?  Models `root_dir.join(name).is_dir()` plus `fs::read_dir`. -/
def lookupDir (root : RootDir) (name : String) : Option (List FileEntry) :=
  (root.subdirs.find? (fun d => d.1 = name)).map Prod.snd

/-- `TanitaValidationError` (parser.rs). -/
inductive TanitaValidationError where
  | MissingDir : String → TanitaValidationError
  | NoFilesFound : TanitaValidationError
  | Unpaired : List Nat → List Nat → TanitaValidationError
deriving Repr, DecidableEq

/-- `const PROFILE_FOLDER_NAME`. -/
def PROFILE_FOLDER_NAME : String := "SYSTEM"

/-- `const DATA_FOLDER_NAME`. -/
def DATA_FOLDER_NAME : String := "DATA"

/-- `const DATA_FILE_NAME_PREFIX`. -/
def DATA_FILE_NAME_PFX : String := "DATA"

/-- `const PROFILE_FILE_NAME_PREFIX`. -/
def PROFILE_FILE_NAME_PFX : String := "PROF"

/-- `const CSV_EXTENTION_NAME` (sic). -/
def CSV_EXTENTION_NAME : String := ".CSV"

/-- `.unwrap()` on a `Result`: panics (`none`) on the error case. -/
def unwrapResult {ε α : Type} : Except ε α → Option α
  | Except.ok a => some a
  | Except.error _ => none

/-- Insert into a `BTreeMap` modelled as a key-sorted association list:
an existing binding for the key is replaced. -/
def btreeInsert {α : Type} (k : Nat) (v : α) : List (Nat × α) → List (Nat × α)
  | [] => [(k, v)]
  | (k₁, v₁) :: rest =>
      if k < k₁ then (k, v) :: (k₁, v₁) :: rest
      else if k = k₁ then (k, v) :: rest
      else (k₁, v₁) :: btreeInsert k v rest

/-- `BTreeMap` lookup. -/
def btreeLookup {α : Type} (m : List (Nat × α)) (k : Nat) : Option α :=
  (m.find? (fun e => e.1 = k)).map Prod.snd

/-- The loop body of the for-loops in `get_raw_users_records`: Rust's `?`
on each element, so a single panic (`none`) aborts the whole traversal. -/
def optMapM {α β : Type} (f : α → Option β) : List α → Option (List β)
  | [] => some []
  | x :: xs =>
      match f x with
      | none => none
      | some y =>
          match optMapM f xs with
          | none => none
          | some ys => some (y :: ys)

namespace TanitaParser

/-- `TanitaParser::require_dir`: the subdirectory must exist, otherwise a
`MissingDir` error naming it. -/
def require_dir (root : RootDir) (name : String) :
    Except TanitaValidationError (List FileEntry) :=
  match lookupDir root name with
  | some listing => Except.ok listing
  | none => Except.error (TanitaValidationError.MissingDir name)

/-- The body of `TanitaParser::get_index` after the filename has been
uppercased: strip the `.CSV` suffix, strip the `DATA` prefix or else the
`PROF` prefix, and parse the remainder as a usize. -/
def getIndexOfUpper (name : String) : Option Nat :=
  match stripSfx CSV_EXTENTION_NAME name with
  | none => none
  | some stem =>
      match stripPfx DATA_FILE_NAME_PFX stem with
      | some digits => parseUsize? digits
      | none =>
          match stripPfx PROFILE_FILE_NAME_PFX stem with
          | some digits => parseUsize? digits
          | none => none

/-- `TanitaParser::get_index`: case-insensitive via
`to_ascii_uppercase`.  Note that the same extractor, accepting either
prefix, is used for both directories. -/
def get_index (file_name : String) : Option Nat :=
  getIndexOfUpper (asciiUppercase file_name)

/-- `TanitaParser::collect_files`: fold the directory listing into a
`BTreeMap` from extracted index to entry; a later entry with the same
index overwrites an earlier one. -/
def collect_files (entries : List FileEntry) : List (Nat × FileEntry) :=
  entries.foldl (fun m e =>
    match get_index e.1 with
    | some idx => btreeInsert idx e m
    | none => m) []

end TanitaParser

/-- `TanitaPair` (parser.rs), with each path carrying its file. -/
structure TanitaPair where
  index : Nat
  profile : FileEntry
  data : FileEntry
deriving Repr, DecidableEq

namespace TanitaParser

/-- The pairing loop of `get_raw_users_records`: for every index in the
profile map, `data_files[&file_num]` — `BTreeMap` indexing, which panics
when the key is absent (and the explicit `panic!("profile and data do not
match")` branch is equally fatal); both are modelled as `none`. -/
def buildPairs (prof_files data_files : List (Nat × FileEntry)) :
    Option (List TanitaPair) :=
  optMapM (fun pe =>
    match btreeLookup data_files pe.1 with
    | some de => some { index := pe.1, profile := pe.2, data := de }
    | none => none) prof_files

/-- The per-pair body of the reading loop of `get_raw_users_records`:
`lines().collect::<Vec<_>>()[0]` on the profile content — an
out-of-bounds panic when the file has no lines — then one `ProfRaw`
decode of that first line and one `DataRaw` decode per data line. -/
def buildRecord (pair : TanitaPair) : Option RawUserRecord :=
  ((rustLines pair.profile.2).head?).bind (fun first_profile_line =>
    (ProfRaw.from_csv_row first_profile_line).bind (fun profile =>
      (optMapM DataRaw.from_csv_row (rustLines pair.data.2)).map
        (fun data => { index := pair.index, profile, data })))

/-- `TanitaParser::get_raw_users_records`.  The source unwraps both
`require_dir` results (missing directory is a panic), pairs the collected
files, then reads and decodes each pair. -/
def get_raw_users_records (root : RootDir) : Option (List RawUserRecord) :=
  (unwrapResult (require_dir root DATA_FOLDER_NAME)).bind (fun data_listing =>
    (unwrapResult (require_dir root PROFILE_FOLDER_NAME)).bind (fun system_listing =>
      (buildPairs (collect_files system_listing)
          (collect_files data_listing)).bind (fun tanita_pairs =>
        optMapM buildRecord tanita_pairs)))

end TanitaParser

/-! ### Spec-side comparison definitions

These two definitions follow the wording of the specification (not the
source); they exist only to be compared against the source-derived
definitions above. -/

/-- Follows the spec's words: a file name (case-insensitive) matches
`<prefix><digits>.CSV` for the given prefix — used to compare the claimed
per-directory prefix discipline with the source's `get_index`. -/
def specPrefixMatch (pre name : String) : Bool :=
  match stripSfx CSV_EXTENTION_NAME (asciiUppercase name) with
  | none => false
  | some stem =>
      match stripPfx (asciiUppercase pre) stem with
      | none => false
      | some ds => decide (ds.data ≠ []) && ds.data.all Char.isDigit

/-- Follows the claim's words: the normalized `d/m/y` rendering of a
`Date` — used to compare the claimed round-trip target with the source's
`Date::to_srting`. -/
def specDmyNormalized (d : Date) : String :=
  toString d.days ++ "/" ++ toString d.months ++ "/" ++ toString d.years

/-! ### Concrete fixtures for the witnesses and counterexamples -/

/-- A raw profile whose birth-date string does not parse. -/
def badProfRaw : ProfRaw := { birth_date_dmy := "not-a-date" }

/-- A raw user record whose profile has an unparseable birth date. -/
def badRecord : RawUserRecord := { index := 7, profile := badProfRaw, data := [] }

/-- A root directory that contains `SYSTEM` but no `DATA` subdirectory. -/
def rootMissingData : RootDir :=
  ⟨[("SYSTEM", [("PROF1.CSV", "MO,X")])]⟩

/-- A root directory with `SYSTEM/PROF3.CSV` and an empty `DATA`
subdirectory, so index 3 has no data file. -/
def rootUnpaired : RootDir :=
  ⟨[("SYSTEM", [("PROF3.CSV", "MO,X")]), ("DATA", [])]⟩

/-- The pairing example of the spec: `SYSTEM/PROF1.CSV`,
`SYSTEM/prof2.csv`, `DATA/DATA1.CSV`, `DATA/DATA2.CSV`. -/
def exampleRoot : RootDir :=
  ⟨[("SYSTEM", [("PROF1.CSV", "MO,X"), ("prof2.csv", "MO,Y")]),
    ("DATA", [("DATA1.CSV", "AG,30"), ("DATA2.CSV", "AG,40")])]⟩

/-- A raw data record whose date and time both parse. -/
def goodDataA : DataRaw := { date_dmy := "1/1/2020", time_hms := "10:20:30" }

/-- A raw data record whose time string does not parse. -/
def badDataB : DataRaw := { date_dmy := "2/1/2020", time_hms := "oops" }

/-- A second raw data record whose date and time both parse. -/
def goodDataC : DataRaw := { date_dmy := "3/1/2020", time_hms := "11:22:33" }

/-- A raw user record with a parseable profile and a middle data record
whose time does not parse. -/
def mixedRecord : RawUserRecord :=
  { index := 1
    profile := { birth_date_dmy := "1/2/2003" }
    data := [goodDataA, badDataB, goodDataC] }

/-- The profile that `Profile::from_raw` yields for `mixedRecord`. -/
def mixedProfile : Profile :=
  { birth_date_dmy := ⟨2003, 2, 1⟩
    gender := Gender.Other 0
    height_cm := 0
    activity_level_code := 0
    body_type_code := 0 }

/-! ## Helper lemmas -/

/-- A token list of odd length drives the `DataRaw` walk into the
out-of-bounds read of `data_entries[key_pointer + 1]`. -/
theorem dataDecodeTokens_odd : ∀ (ts : List String) (a : DataRaw),
    ts.length % 2 = 1 → DataRaw.decodeTokens ts a = none
  | [], _, h => by simp at h
  | [_], _, _ => rfl
  | k :: v :: rest, a, h => by
      have h2 : rest.length % 2 = 1 := by
        simp only [List.length_cons] at h
        omega
      exact dataDecodeTokens_odd rest (DataRaw.applyKV k v a) h2

/-- A token list of odd length drives the `ProfRaw` walk into the same
out-of-bounds read. -/
theorem profDecodeTokens_odd : ∀ (ts : List String) (p : ProfRaw),
    ts.length % 2 = 1 → ProfRaw.decodeTokens ts p = none
  | [], _, h => by simp at h
  | [_], _, _ => rfl
  | k :: v :: rest, p, h => by
      have h2 : rest.length % 2 = 1 := by
        simp only [List.length_cons] at h
        omega
      exact profDecodeTokens_odd rest (ProfRaw.applyKV k v p) h2

/-- On a token list of even length the `DataRaw` walk never reads out of
bounds and is the fold of the dispatch over the key/value pairs. -/
theorem dataDecodeTokens_even : ∀ (ts : List String) (a : DataRaw),
    ts.length % 2 = 0 →
    DataRaw.decodeTokens ts a = some (applyPairsD (pairsOf ts) a)
  | [], _, _ => rfl
  | [_], _, h => by simp at h
  | k :: v :: rest, a, h => by
      have h2 : rest.length % 2 = 0 := by
        simp only [List.length_cons] at h
        omega
      exact dataDecodeTokens_even rest (DataRaw.applyKV k v a) h2

/-- Likewise for the `ProfRaw` walk. -/
theorem profDecodeTokens_even : ∀ (ts : List String) (p : ProfRaw),
    ts.length % 2 = 0 →
    ProfRaw.decodeTokens ts p
      = some ((pairsOf ts).foldl (fun acc kv => ProfRaw.applyKV kv.1 kv.2 acc) p)
  | [], _, _ => rfl
  | [_], _, h => by simp at h
  | k :: v :: rest, p, h => by
      have h2 : rest.length % 2 = 0 := by
        simp only [List.length_cons] at h
        omega
      exact profDecodeTokens_even rest (ProfRaw.applyKV k v p) h2

/-- How one dispatch step touches `muscle_percent`. -/
theorem DataRaw.applyKV_muscle_percent (k v : String) (a : DataRaw) :
    (DataRaw.applyKV k v a).muscle_percent
      = if k = "mW" then some (TanitaParser.parse_f32 v) else a.muscle_percent := by
  rw [DataRaw.applyKV]
  by_cases h1 : k = "MO"
  · subst h1; rfl
  rw [if_neg h1]
  by_cases h2 : k = "DT"
  · subst h2; rfl
  rw [if_neg h2]
  by_cases h3 : k = "Ti"
  · subst h3; rfl
  rw [if_neg h3]
  by_cases h4 : k = "GE"
  · subst h4; rfl
  rw [if_neg h4]
  by_cases h5 : k = "AG"
  · subst h5; rfl
  rw [if_neg h5]
  by_cases h6 : k = "Hm"
  · subst h6; rfl
  rw [if_neg h6]
  by_cases h7 : k = "AL"
  · subst h7; rfl
  rw [if_neg h7]
  by_cases h8 : k = "Bt"
  · subst h8; rfl
  rw [if_neg h8]
  by_cases h9 : k = "Wk"
  · subst h9; rfl
  rw [if_neg h9]
  by_cases h10 : k = "MI"
  · subst h10; rfl
  rw [if_neg h10]
  by_cases h11 : k = "FW"
  · subst h11; rfl
  rw [if_neg h11]
  by_cases h12 : k = "Fr"
  · subst h12; rfl
  rw [if_neg h12]
  by_cases h13 : k = "Fl"
  · subst h13; rfl
  rw [if_neg h13]
  by_cases h14 : k = "FR"
  · subst h14; rfl
  rw [if_neg h14]
  by_cases h15 : k = "FL"
  · subst h15; rfl
  rw [if_neg h15]
  by_cases h16 : k = "FT"
  · subst h16; rfl
  rw [if_neg h16]
  by_cases h17 : k = "mW"
  · subst h17; rfl
  rw [if_neg h17]
  by_cases h18 : k = "ml"
  · subst h18; rfl
  rw [if_neg h18]
  by_cases h19 : k = "mr"
  · subst h19; rfl
  rw [if_neg h19]
  by_cases h20 : k = "mR"
  · subst h20; rfl
  rw [if_neg h20]
  by_cases h21 : k = "mL"
  · subst h21; rfl
  rw [if_neg h21]
  by_cases h22 : k = "mT"
  · subst h22; rfl
  rw [if_neg h22]
  by_cases h23 : k = "bw"
  · subst h23; rfl
  rw [if_neg h23]
  by_cases h24 : k = "ww"
  · subst h24; rfl
  rw [if_neg h24]
  by_cases h25 : k = "IF"
  · subst h25; rfl
  rw [if_neg h25]
  by_cases h26 : k = "rA"
  · subst h26; rfl
  rw [if_neg h26]
  by_cases h27 : k = "rD"
  · subst h27; rfl
  rw [if_neg h27]
  by_cases h28 : k = "CS"
  · subst h28; rfl
  rw [if_neg h28]
  rw [if_neg h17]

/-- How one dispatch step touches `muscle_right_arm_pct`. -/
theorem DataRaw.applyKV_muscle_right_arm_pct (k v : String) (a : DataRaw) :
    (DataRaw.applyKV k v a).muscle_right_arm_pct
      = if k = "mr" then some (TanitaParser.parse_f32 v) else a.muscle_right_arm_pct := by
  rw [DataRaw.applyKV]
  by_cases h1 : k = "MO"
  · subst h1; rfl
  rw [if_neg h1]
  by_cases h2 : k = "DT"
  · subst h2; rfl
  rw [if_neg h2]
  by_cases h3 : k = "Ti"
  · subst h3; rfl
  rw [if_neg h3]
  by_cases h4 : k = "GE"
  · subst h4; rfl
  rw [if_neg h4]
  by_cases h5 : k = "AG"
  · subst h5; rfl
  rw [if_neg h5]
  by_cases h6 : k = "Hm"
  · subst h6; rfl
  rw [if_neg h6]
  by_cases h7 : k = "AL"
  · subst h7; rfl
  rw [if_neg h7]
  by_cases h8 : k = "Bt"
  · subst h8; rfl
  rw [if_neg h8]
  by_cases h9 : k = "Wk"
  · subst h9; rfl
  rw [if_neg h9]
  by_cases h10 : k = "MI"
  · subst h10; rfl
  rw [if_neg h10]
  by_cases h11 : k = "FW"
  · subst h11; rfl
  rw [if_neg h11]
  by_cases h12 : k = "Fr"
  · subst h12; rfl
  rw [if_neg h12]
  by_cases h13 : k = "Fl"
  · subst h13; rfl
  rw [if_neg h13]
  by_cases h14 : k = "FR"
  · subst h14; rfl
  rw [if_neg h14]
  by_cases h15 : k = "FL"
  · subst h15; rfl
  rw [if_neg h15]
  by_cases h16 : k = "FT"
  · subst h16; rfl
  rw [if_neg h16]
  by_cases h17 : k = "mW"
  · subst h17; rfl
  rw [if_neg h17]
  by_cases h18 : k = "ml"
  · subst h18; rfl
  rw [if_neg h18]
  by_cases h19 : k = "mr"
  · subst h19; rfl
  rw [if_neg h19]
  by_cases h20 : k = "mR"
  · subst h20; rfl
  rw [if_neg h20]
  by_cases h21 : k = "mL"
  · subst h21; rfl
  rw [if_neg h21]
  by_cases h22 : k = "mT"
  · subst h22; rfl
  rw [if_neg h22]
  by_cases h23 : k = "bw"
  · subst h23; rfl
  rw [if_neg h23]
  by_cases h24 : k = "ww"
  · subst h24; rfl
  rw [if_neg h24]
  by_cases h25 : k = "IF"
  · subst h25; rfl
  rw [if_neg h25]
  by_cases h26 : k = "rA"
  · subst h26; rfl
  rw [if_neg h26]
  by_cases h27 : k = "rD"
  · subst h27; rfl
  rw [if_neg h27]
  by_cases h28 : k = "CS"
  · subst h28; rfl
  rw [if_neg h28]
  rw [if_neg h19]

/-- How one dispatch step touches `muscle_left_arm_pct`. -/
theorem DataRaw.applyKV_muscle_left_arm_pct (k v : String) (a : DataRaw) :
    (DataRaw.applyKV k v a).muscle_left_arm_pct
      = if k = "ml" then some (TanitaParser.parse_f32 v) else a.muscle_left_arm_pct := by
  rw [DataRaw.applyKV]
  by_cases h1 : k = "MO"
  · subst h1; rfl
  rw [if_neg h1]
  by_cases h2 : k = "DT"
  · subst h2; rfl
  rw [if_neg h2]
  by_cases h3 : k = "Ti"
  · subst h3; rfl
  rw [if_neg h3]
  by_cases h4 : k = "GE"
  · subst h4; rfl
  rw [if_neg h4]
  by_cases h5 : k = "AG"
  · subst h5; rfl
  rw [if_neg h5]
  by_cases h6 : k = "Hm"
  · subst h6; rfl
  rw [if_neg h6]
  by_cases h7 : k = "AL"
  · subst h7; rfl
  rw [if_neg h7]
  by_cases h8 : k = "Bt"
  · subst h8; rfl
  rw [if_neg h8]
  by_cases h9 : k = "Wk"
  · subst h9; rfl
  rw [if_neg h9]
  by_cases h10 : k = "MI"
  · subst h10; rfl
  rw [if_neg h10]
  by_cases h11 : k = "FW"
  · subst h11; rfl
  rw [if_neg h11]
  by_cases h12 : k = "Fr"
  · subst h12; rfl
  rw [if_neg h12]
  by_cases h13 : k = "Fl"
  · subst h13; rfl
  rw [if_neg h13]
  by_cases h14 : k = "FR"
  · subst h14; rfl
  rw [if_neg h14]
  by_cases h15 : k = "FL"
  · subst h15; rfl
  rw [if_neg h15]
  by_cases h16 : k = "FT"
  · subst h16; rfl
  rw [if_neg h16]
  by_cases h17 : k = "mW"
  · subst h17; rfl
  rw [if_neg h17]
  by_cases h18 : k = "ml"
  · subst h18; rfl
  rw [if_neg h18]
  by_cases h19 : k = "mr"
  · subst h19; rfl
  rw [if_neg h19]
  by_cases h20 : k = "mR"
  · subst h20; rfl
  rw [if_neg h20]
  by_cases h21 : k = "mL"
  · subst h21; rfl
  rw [if_neg h21]
  by_cases h22 : k = "mT"
  · subst h22; rfl
  rw [if_neg h22]
  by_cases h23 : k = "bw"
  · subst h23; rfl
  rw [if_neg h23]
  by_cases h24 : k = "ww"
  · subst h24; rfl
  rw [if_neg h24]
  by_cases h25 : k = "IF"
  · subst h25; rfl
  rw [if_neg h25]
  by_cases h26 : k = "rA"
  · subst h26; rfl
  rw [if_neg h26]
  by_cases h27 : k = "rD"
  · subst h27; rfl
  rw [if_neg h27]
  by_cases h28 : k = "CS"
  · subst h28; rfl
  rw [if_neg h28]
  rw [if_neg h18]

/-- How one dispatch step touches `muscle_right_leg_pct`. -/
theorem DataRaw.applyKV_muscle_right_leg_pct (k v : String) (a : DataRaw) :
    (DataRaw.applyKV k v a).muscle_right_leg_pct
      = if k = "mR" then some (TanitaParser.parse_f32 v) else a.muscle_right_leg_pct := by
  rw [DataRaw.applyKV]
  by_cases h1 : k = "MO"
  · subst h1; rfl
  rw [if_neg h1]
  by_cases h2 : k = "DT"
  · subst h2; rfl
  rw [if_neg h2]
  by_cases h3 : k = "Ti"
  · subst h3; rfl
  rw [if_neg h3]
  by_cases h4 : k = "GE"
  · subst h4; rfl
  rw [if_neg h4]
  by_cases h5 : k = "AG"
  · subst h5; rfl
  rw [if_neg h5]
  by_cases h6 : k = "Hm"
  · subst h6; rfl
  rw [if_neg h6]
  by_cases h7 : k = "AL"
  · subst h7; rfl
  rw [if_neg h7]
  by_cases h8 : k = "Bt"
  · subst h8; rfl
  rw [if_neg h8]
  by_cases h9 : k = "Wk"
  · subst h9; rfl
  rw [if_neg h9]
  by_cases h10 : k = "MI"
  · subst h10; rfl
  rw [if_neg h10]
  by_cases h11 : k = "FW"
  · subst h11; rfl
  rw [if_neg h11]
  by_cases h12 : k = "Fr"
  · subst h12; rfl
  rw [if_neg h12]
  by_cases h13 : k = "Fl"
  · subst h13; rfl
  rw [if_neg h13]
  by_cases h14 : k = "FR"
  · subst h14; rfl
  rw [if_neg h14]
  by_cases h15 : k = "FL"
  · subst h15; rfl
  rw [if_neg h15]
  by_cases h16 : k = "FT"
  · subst h16; rfl
  rw [if_neg h16]
  by_cases h17 : k = "mW"
  · subst h17; rfl
  rw [if_neg h17]
  by_cases h18 : k = "ml"
  · subst h18; rfl
  rw [if_neg h18]
  by_cases h19 : k = "mr"
  · subst h19; rfl
  rw [if_neg h19]
  by_cases h20 : k = "mR"
  · subst h20; rfl
  rw [if_neg h20]
  by_cases h21 : k = "mL"
  · subst h21; rfl
  rw [if_neg h21]
  by_cases h22 : k = "mT"
  · subst h22; rfl
  rw [if_neg h22]
  by_cases h23 : k = "bw"
  · subst h23; rfl
  rw [if_neg h23]
  by_cases h24 : k = "ww"
  · subst h24; rfl
  rw [if_neg h24]
  by_cases h25 : k = "IF"
  · subst h25; rfl
  rw [if_neg h25]
  by_cases h26 : k = "rA"
  · subst h26; rfl
  rw [if_neg h26]
  by_cases h27 : k = "rD"
  · subst h27; rfl
  rw [if_neg h27]
  by_cases h28 : k = "CS"
  · subst h28; rfl
  rw [if_neg h28]
  rw [if_neg h20]

/-- How one dispatch step touches `muscle_left_leg_pct`. -/
theorem DataRaw.applyKV_muscle_left_leg_pct (k v : String) (a : DataRaw) :
    (DataRaw.applyKV k v a).muscle_left_leg_pct
      = if k = "mL" then some (TanitaParser.parse_f32 v) else a.muscle_left_leg_pct := by
  rw [DataRaw.applyKV]
  by_cases h1 : k = "MO"
  · subst h1; rfl
  rw [if_neg h1]
  by_cases h2 : k = "DT"
  · subst h2; rfl
  rw [if_neg h2]
  by_cases h3 : k = "Ti"
  · subst h3; rfl
  rw [if_neg h3]
  by_cases h4 : k = "GE"
  · subst h4; rfl
  rw [if_neg h4]
  by_cases h5 : k = "AG"
  · subst h5; rfl
  rw [if_neg h5]
  by_cases h6 : k = "Hm"
  · subst h6; rfl
  rw [if_neg h6]
  by_cases h7 : k = "AL"
  · subst h7; rfl
  rw [if_neg h7]
  by_cases h8 : k = "Bt"
  · subst h8; rfl
  rw [if_neg h8]
  by_cases h9 : k = "Wk"
  · subst h9; rfl
  rw [if_neg h9]
  by_cases h10 : k = "MI"
  · subst h10; rfl
  rw [if_neg h10]
  by_cases h11 : k = "FW"
  · subst h11; rfl
  rw [if_neg h11]
  by_cases h12 : k = "Fr"
  · subst h12; rfl
  rw [if_neg h12]
  by_cases h13 : k = "Fl"
  · subst h13; rfl
  rw [if_neg h13]
  by_cases h14 : k = "FR"
  · subst h14; rfl
  rw [if_neg h14]
  by_cases h15 : k = "FL"
  · subst h15; rfl
  rw [if_neg h15]
  by_cases h16 : k = "FT"
  · subst h16; rfl
  rw [if_neg h16]
  by_cases h17 : k = "mW"
  · subst h17; rfl
  rw [if_neg h17]
  by_cases h18 : k = "ml"
  · subst h18; rfl
  rw [if_neg h18]
  by_cases h19 : k = "mr"
  · subst h19; rfl
  rw [if_neg h19]
  by_cases h20 : k = "mR"
  · subst h20; rfl
  rw [if_neg h20]
  by_cases h21 : k = "mL"
  · subst h21; rfl
  rw [if_neg h21]
  by_cases h22 : k = "mT"
  · subst h22; rfl
  rw [if_neg h22]
  by_cases h23 : k = "bw"
  · subst h23; rfl
  rw [if_neg h23]
  by_cases h24 : k = "ww"
  · subst h24; rfl
  rw [if_neg h24]
  by_cases h25 : k = "IF"
  · subst h25; rfl
  rw [if_neg h25]
  by_cases h26 : k = "rA"
  · subst h26; rfl
  rw [if_neg h26]
  by_cases h27 : k = "rD"
  · subst h27; rfl
  rw [if_neg h27]
  by_cases h28 : k = "CS"
  · subst h28; rfl
  rw [if_neg h28]
  rw [if_neg h21]

/-- How one dispatch step touches `muscle_trunk_pct`. -/
theorem DataRaw.applyKV_muscle_trunk_pct (k v : String) (a : DataRaw) :
    (DataRaw.applyKV k v a).muscle_trunk_pct
      = if k = "mT" then some (TanitaParser.parse_f32 v) else a.muscle_trunk_pct := by
  rw [DataRaw.applyKV]
  by_cases h1 : k = "MO"
  · subst h1; rfl
  rw [if_neg h1]
  by_cases h2 : k = "DT"
  · subst h2; rfl
  rw [if_neg h2]
  by_cases h3 : k = "Ti"
  · subst h3; rfl
  rw [if_neg h3]
  by_cases h4 : k = "GE"
  · subst h4; rfl
  rw [if_neg h4]
  by_cases h5 : k = "AG"
  · subst h5; rfl
  rw [if_neg h5]
  by_cases h6 : k = "Hm"
  · subst h6; rfl
  rw [if_neg h6]
  by_cases h7 : k = "AL"
  · subst h7; rfl
  rw [if_neg h7]
  by_cases h8 : k = "Bt"
  · subst h8; rfl
  rw [if_neg h8]
  by_cases h9 : k = "Wk"
  · subst h9; rfl
  rw [if_neg h9]
  by_cases h10 : k = "MI"
  · subst h10; rfl
  rw [if_neg h10]
  by_cases h11 : k = "FW"
  · subst h11; rfl
  rw [if_neg h11]
  by_cases h12 : k = "Fr"
  · subst h12; rfl
  rw [if_neg h12]
  by_cases h13 : k = "Fl"
  · subst h13; rfl
  rw [if_neg h13]
  by_cases h14 : k = "FR"
  · subst h14; rfl
  rw [if_neg h14]
  by_cases h15 : k = "FL"
  · subst h15; rfl
  rw [if_neg h15]
  by_cases h16 : k = "FT"
  · subst h16; rfl
  rw [if_neg h16]
  by_cases h17 : k = "mW"
  · subst h17; rfl
  rw [if_neg h17]
  by_cases h18 : k = "ml"
  · subst h18; rfl
  rw [if_neg h18]
  by_cases h19 : k = "mr"
  · subst h19; rfl
  rw [if_neg h19]
  by_cases h20 : k = "mR"
  · subst h20; rfl
  rw [if_neg h20]
  by_cases h21 : k = "mL"
  · subst h21; rfl
  rw [if_neg h21]
  by_cases h22 : k = "mT"
  · subst h22; rfl
  rw [if_neg h22]
  by_cases h23 : k = "bw"
  · subst h23; rfl
  rw [if_neg h23]
  by_cases h24 : k = "ww"
  · subst h24; rfl
  rw [if_neg h24]
  by_cases h25 : k = "IF"
  · subst h25; rfl
  rw [if_neg h25]
  by_cases h26 : k = "rA"
  · subst h26; rfl
  rw [if_neg h26]
  by_cases h27 : k = "rD"
  · subst h27; rfl
  rw [if_neg h27]
  by_cases h28 : k = "CS"
  · subst h28; rfl
  rw [if_neg h28]
  rw [if_neg h22]

/-- How one dispatch step touches `bone_kg`. -/
theorem DataRaw.applyKV_bone_kg (k v : String) (a : DataRaw) :
    (DataRaw.applyKV k v a).bone_kg
      = if k = "bw" then some (TanitaParser.parse_f32 v) else a.bone_kg := by
  rw [DataRaw.applyKV]
  by_cases h1 : k = "MO"
  · subst h1; rfl
  rw [if_neg h1]
  by_cases h2 : k = "DT"
  · subst h2; rfl
  rw [if_neg h2]
  by_cases h3 : k = "Ti"
  · subst h3; rfl
  rw [if_neg h3]
  by_cases h4 : k = "GE"
  · subst h4; rfl
  rw [if_neg h4]
  by_cases h5 : k = "AG"
  · subst h5; rfl
  rw [if_neg h5]
  by_cases h6 : k = "Hm"
  · subst h6; rfl
  rw [if_neg h6]
  by_cases h7 : k = "AL"
  · subst h7; rfl
  rw [if_neg h7]
  by_cases h8 : k = "Bt"
  · subst h8; rfl
  rw [if_neg h8]
  by_cases h9 : k = "Wk"
  · subst h9; rfl
  rw [if_neg h9]
  by_cases h10 : k = "MI"
  · subst h10; rfl
  rw [if_neg h10]
  by_cases h11 : k = "FW"
  · subst h11; rfl
  rw [if_neg h11]
  by_cases h12 : k = "Fr"
  · subst h12; rfl
  rw [if_neg h12]
  by_cases h13 : k = "Fl"
  · subst h13; rfl
  rw [if_neg h13]
  by_cases h14 : k = "FR"
  · subst h14; rfl
  rw [if_neg h14]
  by_cases h15 : k = "FL"
  · subst h15; rfl
  rw [if_neg h15]
  by_cases h16 : k = "FT"
  · subst h16; rfl
  rw [if_neg h16]
  by_cases h17 : k = "mW"
  · subst h17; rfl
  rw [if_neg h17]
  by_cases h18 : k = "ml"
  · subst h18; rfl
  rw [if_neg h18]
  by_cases h19 : k = "mr"
  · subst h19; rfl
  rw [if_neg h19]
  by_cases h20 : k = "mR"
  · subst h20; rfl
  rw [if_neg h20]
  by_cases h21 : k = "mL"
  · subst h21; rfl
  rw [if_neg h21]
  by_cases h22 : k = "mT"
  · subst h22; rfl
  rw [if_neg h22]
  by_cases h23 : k = "bw"
  · subst h23; rfl
  rw [if_neg h23]
  by_cases h24 : k = "ww"
  · subst h24; rfl
  rw [if_neg h24]
  by_cases h25 : k = "IF"
  · subst h25; rfl
  rw [if_neg h25]
  by_cases h26 : k = "rA"
  · subst h26; rfl
  rw [if_neg h26]
  by_cases h27 : k = "rD"
  · subst h27; rfl
  rw [if_neg h27]
  by_cases h28 : k = "CS"
  · subst h28; rfl
  rw [if_neg h28]
  rw [if_neg h23]

/-- How one dispatch step touches `water_percent`. -/
theorem DataRaw.applyKV_water_percent (k v : String) (a : DataRaw) :
    (DataRaw.applyKV k v a).water_percent
      = if k = "ww" then some (TanitaParser.parse_f32 v) else a.water_percent := by
  rw [DataRaw.applyKV]
  by_cases h1 : k = "MO"
  · subst h1; rfl
  rw [if_neg h1]
  by_cases h2 : k = "DT"
  · subst h2; rfl
  rw [if_neg h2]
  by_cases h3 : k = "Ti"
  · subst h3; rfl
  rw [if_neg h3]
  by_cases h4 : k = "GE"
  · subst h4; rfl
  rw [if_neg h4]
  by_cases h5 : k = "AG"
  · subst h5; rfl
  rw [if_neg h5]
  by_cases h6 : k = "Hm"
  · subst h6; rfl
  rw [if_neg h6]
  by_cases h7 : k = "AL"
  · subst h7; rfl
  rw [if_neg h7]
  by_cases h8 : k = "Bt"
  · subst h8; rfl
  rw [if_neg h8]
  by_cases h9 : k = "Wk"
  · subst h9; rfl
  rw [if_neg h9]
  by_cases h10 : k = "MI"
  · subst h10; rfl
  rw [if_neg h10]
  by_cases h11 : k = "FW"
  · subst h11; rfl
  rw [if_neg h11]
  by_cases h12 : k = "Fr"
  · subst h12; rfl
  rw [if_neg h12]
  by_cases h13 : k = "Fl"
  · subst h13; rfl
  rw [if_neg h13]
  by_cases h14 : k = "FR"
  · subst h14; rfl
  rw [if_neg h14]
  by_cases h15 : k = "FL"
  · subst h15; rfl
  rw [if_neg h15]
  by_cases h16 : k = "FT"
  · subst h16; rfl
  rw [if_neg h16]
  by_cases h17 : k = "mW"
  · subst h17; rfl
  rw [if_neg h17]
  by_cases h18 : k = "ml"
  · subst h18; rfl
  rw [if_neg h18]
  by_cases h19 : k = "mr"
  · subst h19; rfl
  rw [if_neg h19]
  by_cases h20 : k = "mR"
  · subst h20; rfl
  rw [if_neg h20]
  by_cases h21 : k = "mL"
  · subst h21; rfl
  rw [if_neg h21]
  by_cases h22 : k = "mT"
  · subst h22; rfl
  rw [if_neg h22]
  by_cases h23 : k = "bw"
  · subst h23; rfl
  rw [if_neg h23]
  by_cases h24 : k = "ww"
  · subst h24; rfl
  rw [if_neg h24]
  by_cases h25 : k = "IF"
  · subst h25; rfl
  rw [if_neg h25]
  by_cases h26 : k = "rA"
  · subst h26; rfl
  rw [if_neg h26]
  by_cases h27 : k = "rD"
  · subst h27; rfl
  rw [if_neg h27]
  by_cases h28 : k = "CS"
  · subst h28; rfl
  rw [if_neg h28]
  rw [if_neg h24]

/-- How one dispatch step touches `visceral_fat_rating`. -/
theorem DataRaw.applyKV_visceral_fat_rating (k v : String) (a : DataRaw) :
    (DataRaw.applyKV k v a).visceral_fat_rating
      = if k = "IF" then some (TanitaParser.parse_u8 v) else a.visceral_fat_rating := by
  rw [DataRaw.applyKV]
  by_cases h1 : k = "MO"
  · subst h1; rfl
  rw [if_neg h1]
  by_cases h2 : k = "DT"
  · subst h2; rfl
  rw [if_neg h2]
  by_cases h3 : k = "Ti"
  · subst h3; rfl
  rw [if_neg h3]
  by_cases h4 : k = "GE"
  · subst h4; rfl
  rw [if_neg h4]
  by_cases h5 : k = "AG"
  · subst h5; rfl
  rw [if_neg h5]
  by_cases h6 : k = "Hm"
  · subst h6; rfl
  rw [if_neg h6]
  by_cases h7 : k = "AL"
  · subst h7; rfl
  rw [if_neg h7]
  by_cases h8 : k = "Bt"
  · subst h8; rfl
  rw [if_neg h8]
  by_cases h9 : k = "Wk"
  · subst h9; rfl
  rw [if_neg h9]
  by_cases h10 : k = "MI"
  · subst h10; rfl
  rw [if_neg h10]
  by_cases h11 : k = "FW"
  · subst h11; rfl
  rw [if_neg h11]
  by_cases h12 : k = "Fr"
  · subst h12; rfl
  rw [if_neg h12]
  by_cases h13 : k = "Fl"
  · subst h13; rfl
  rw [if_neg h13]
  by_cases h14 : k = "FR"
  · subst h14; rfl
  rw [if_neg h14]
  by_cases h15 : k = "FL"
  · subst h15; rfl
  rw [if_neg h15]
  by_cases h16 : k = "FT"
  · subst h16; rfl
  rw [if_neg h16]
  by_cases h17 : k = "mW"
  · subst h17; rfl
  rw [if_neg h17]
  by_cases h18 : k = "ml"
  · subst h18; rfl
  rw [if_neg h18]
  by_cases h19 : k = "mr"
  · subst h19; rfl
  rw [if_neg h19]
  by_cases h20 : k = "mR"
  · subst h20; rfl
  rw [if_neg h20]
  by_cases h21 : k = "mL"
  · subst h21; rfl
  rw [if_neg h21]
  by_cases h22 : k = "mT"
  · subst h22; rfl
  rw [if_neg h22]
  by_cases h23 : k = "bw"
  · subst h23; rfl
  rw [if_neg h23]
  by_cases h24 : k = "ww"
  · subst h24; rfl
  rw [if_neg h24]
  by_cases h25 : k = "IF"
  · subst h25; rfl
  rw [if_neg h25]
  by_cases h26 : k = "rA"
  · subst h26; rfl
  rw [if_neg h26]
  by_cases h27 : k = "rD"
  · subst h27; rfl
  rw [if_neg h27]
  by_cases h28 : k = "CS"
  · subst h28; rfl
  rw [if_neg h28]
  rw [if_neg h25]

/-- How one dispatch step touches `metabolic_age_years`. -/
theorem DataRaw.applyKV_metabolic_age_years (k v : String) (a : DataRaw) :
    (DataRaw.applyKV k v a).metabolic_age_years
      = if k = "rA" then some (TanitaParser.parse_u8 v) else a.metabolic_age_years := by
  rw [DataRaw.applyKV]
  by_cases h1 : k = "MO"
  · subst h1; rfl
  rw [if_neg h1]
  by_cases h2 : k = "DT"
  · subst h2; rfl
  rw [if_neg h2]
  by_cases h3 : k = "Ti"
  · subst h3; rfl
  rw [if_neg h3]
  by_cases h4 : k = "GE"
  · subst h4; rfl
  rw [if_neg h4]
  by_cases h5 : k = "AG"
  · subst h5; rfl
  rw [if_neg h5]
  by_cases h6 : k = "Hm"
  · subst h6; rfl
  rw [if_neg h6]
  by_cases h7 : k = "AL"
  · subst h7; rfl
  rw [if_neg h7]
  by_cases h8 : k = "Bt"
  · subst h8; rfl
  rw [if_neg h8]
  by_cases h9 : k = "Wk"
  · subst h9; rfl
  rw [if_neg h9]
  by_cases h10 : k = "MI"
  · subst h10; rfl
  rw [if_neg h10]
  by_cases h11 : k = "FW"
  · subst h11; rfl
  rw [if_neg h11]
  by_cases h12 : k = "Fr"
  · subst h12; rfl
  rw [if_neg h12]
  by_cases h13 : k = "Fl"
  · subst h13; rfl
  rw [if_neg h13]
  by_cases h14 : k = "FR"
  · subst h14; rfl
  rw [if_neg h14]
  by_cases h15 : k = "FL"
  · subst h15; rfl
  rw [if_neg h15]
  by_cases h16 : k = "FT"
  · subst h16; rfl
  rw [if_neg h16]
  by_cases h17 : k = "mW"
  · subst h17; rfl
  rw [if_neg h17]
  by_cases h18 : k = "ml"
  · subst h18; rfl
  rw [if_neg h18]
  by_cases h19 : k = "mr"
  · subst h19; rfl
  rw [if_neg h19]
  by_cases h20 : k = "mR"
  · subst h20; rfl
  rw [if_neg h20]
  by_cases h21 : k = "mL"
  · subst h21; rfl
  rw [if_neg h21]
  by_cases h22 : k = "mT"
  · subst h22; rfl
  rw [if_neg h22]
  by_cases h23 : k = "bw"
  · subst h23; rfl
  rw [if_neg h23]
  by_cases h24 : k = "ww"
  · subst h24; rfl
  rw [if_neg h24]
  by_cases h25 : k = "IF"
  · subst h25; rfl
  rw [if_neg h25]
  by_cases h26 : k = "rA"
  · subst h26; rfl
  rw [if_neg h26]
  by_cases h27 : k = "rD"
  · subst h27; rfl
  rw [if_neg h27]
  by_cases h28 : k = "CS"
  · subst h28; rfl
  rw [if_neg h28]
  rw [if_neg h26]

/-- How one dispatch step touches `daily_calorie_intake_kcal`. -/
theorem DataRaw.applyKV_daily_calorie_intake_kcal (k v : String) (a : DataRaw) :
    (DataRaw.applyKV k v a).daily_calorie_intake_kcal
      = if k = "rD" then some (TanitaParser.parse_u16 v) else a.daily_calorie_intake_kcal := by
  rw [DataRaw.applyKV]
  by_cases h1 : k = "MO"
  · subst h1; rfl
  rw [if_neg h1]
  by_cases h2 : k = "DT"
  · subst h2; rfl
  rw [if_neg h2]
  by_cases h3 : k = "Ti"
  · subst h3; rfl
  rw [if_neg h3]
  by_cases h4 : k = "GE"
  · subst h4; rfl
  rw [if_neg h4]
  by_cases h5 : k = "AG"
  · subst h5; rfl
  rw [if_neg h5]
  by_cases h6 : k = "Hm"
  · subst h6; rfl
  rw [if_neg h6]
  by_cases h7 : k = "AL"
  · subst h7; rfl
  rw [if_neg h7]
  by_cases h8 : k = "Bt"
  · subst h8; rfl
  rw [if_neg h8]
  by_cases h9 : k = "Wk"
  · subst h9; rfl
  rw [if_neg h9]
  by_cases h10 : k = "MI"
  · subst h10; rfl
  rw [if_neg h10]
  by_cases h11 : k = "FW"
  · subst h11; rfl
  rw [if_neg h11]
  by_cases h12 : k = "Fr"
  · subst h12; rfl
  rw [if_neg h12]
  by_cases h13 : k = "Fl"
  · subst h13; rfl
  rw [if_neg h13]
  by_cases h14 : k = "FR"
  · subst h14; rfl
  rw [if_neg h14]
  by_cases h15 : k = "FL"
  · subst h15; rfl
  rw [if_neg h15]
  by_cases h16 : k = "FT"
  · subst h16; rfl
  rw [if_neg h16]
  by_cases h17 : k = "mW"
  · subst h17; rfl
  rw [if_neg h17]
  by_cases h18 : k = "ml"
  · subst h18; rfl
  rw [if_neg h18]
  by_cases h19 : k = "mr"
  · subst h19; rfl
  rw [if_neg h19]
  by_cases h20 : k = "mR"
  · subst h20; rfl
  rw [if_neg h20]
  by_cases h21 : k = "mL"
  · subst h21; rfl
  rw [if_neg h21]
  by_cases h22 : k = "mT"
  · subst h22; rfl
  rw [if_neg h22]
  by_cases h23 : k = "bw"
  · subst h23; rfl
  rw [if_neg h23]
  by_cases h24 : k = "ww"
  · subst h24; rfl
  rw [if_neg h24]
  by_cases h25 : k = "IF"
  · subst h25; rfl
  rw [if_neg h25]
  by_cases h26 : k = "rA"
  · subst h26; rfl
  rw [if_neg h26]
  by_cases h27 : k = "rD"
  · subst h27; rfl
  rw [if_neg h27]
  by_cases h28 : k = "CS"
  · subst h28; rfl
  rw [if_neg h28]
  rw [if_neg h27]

/-- Replaying pairs through the dispatch leaves an optional field present
exactly when it was already present or its key occurs among the pairs. -/
theorem applyPairsD_isSome {α : Type} (f : DataRaw → Option α) (K : String)
    (g : String → α)
    (hstep : ∀ k v a, f (DataRaw.applyKV k v a)
      = if k = K then some (g v) else f a) :
    ∀ (ps : List (String × String)) (a : DataRaw),
      (f (applyPairsD ps a)).isSome ↔ ((f a).isSome ∨ K ∈ ps.map Prod.fst)
  | [], a => by simp [applyPairsD]
  | (k, v) :: ps, a => by
      have ih := applyPairsD_isSome f K g hstep ps (DataRaw.applyKV k v a)
      simp only [applyPairsD, List.foldl_cons] at ih ⊢
      rw [ih, hstep]
      by_cases hk : k = K
      · subst hk
        simp
      · simp only [if_neg hk, List.map_cons, List.mem_cons]
        constructor
        · intro h
          rcases h with h | h
          · exact Or.inl h
          · exact Or.inr (Or.inr h)
        · intro h
          rcases h with h | h | h
          · exact Or.inl h
          · exact absurd h.symm hk
          · exact Or.inr h

/-- The measurement loop keeps exactly the convertible records, in their
original order. -/
theorem buildMeasurements_eq_filterMap : ∀ ds : List DataRaw,
    buildMeasurements ds = ds.filterMap Measurement.from_raw
  | [] => rfl
  | d :: rest => by
      rw [buildMeasurements, List.filterMap_cons]
      cases h : Measurement.from_raw d <;>
        simp [h, buildMeasurements_eq_filterMap rest]

/-- A measurement conversion fails exactly when the raw date/time pair
does not parse. -/
theorem Measurement.from_raw_isNone (d : DataRaw) :
    (Measurement.from_raw d).isNone
      ↔ (DateTime.from_string d.date_dmy d.time_hms).isNone := by
  rw [Measurement.from_raw]
  cases DateTime.from_string d.date_dmy d.time_hms <;> simp

/-- A traversal with an element that panics panics as a whole. -/
theorem optMapM_eq_none_of_mem {α β : Type} (f : α → Option β) :
    ∀ (l : List α) (x : α), x ∈ l → f x = none → optMapM f l = none
  | a :: l, x, hmem, hx => by
      rcases List.mem_cons.mp hmem with h | h
      · subst h
        rw [optMapM, hx]
      · rw [optMapM]
        cases hfa : f a
        · rfl
        · rw [optMapM_eq_none_of_mem f l x h hx]

/-- A successful `BTreeMap` lookup comes from a stored binding. -/
theorem btreeLookup_mem {α : Type} {m : List (Nat × α)} {i : Nat} {v : α}
    (h : btreeLookup m i = some v) : (i, v) ∈ m := by
  rw [btreeLookup] at h
  cases hf : m.find? (fun e => e.1 = i) with
  | none => rw [hf] at h; cases h
  | some e =>
      rw [hf] at h
      have hmem := List.mem_of_find?_eq_some hf
      have hp := List.find?_some hf
      have h1 : e.1 = i := by
        have := of_decide_eq_true hp
        exact this
      have h2 : e.2 = v := by
        simpa using h
      have : e = (i, v) := by
        cases e
        simp_all
      rw [this] at hmem
      exact hmem

/-- Inserting a binding makes it the one the lookup finds. -/
theorem btreeLookup_insert_self {α : Type} (k : Nat) (v : α) :
    ∀ m : List (Nat × α), btreeLookup (btreeInsert k v m) k = some v
  | [] => by simp [btreeInsert, btreeLookup]
  | (k₁, v₁) :: rest => by
      rw [btreeInsert]
      by_cases h1 : k < k₁
      · rw [if_pos h1]
        simp [btreeLookup]
      · rw [if_neg h1]
        by_cases h2 : k = k₁
        · rw [if_pos h2]
          simp [btreeLookup]
        · rw [if_neg h2]
          have hne : ¬ (k₁ = k) := fun h => h2 h.symm
          have ih := btreeLookup_insert_self k v rest
          simp [btreeLookup, List.find?_cons, hne] at ih ⊢
          exact ih

/-! ## Claim theorems -/

/-- C1: the claim states that on a comma-split token list of odd length
the record decoders complete without an out-of-range access, discarding
the dangling final token.  The source instead reads
`data_entries[key_pointer + 1]` one past the end of the slice — an
out-of-bounds panic, here the `none` outcome — for every odd-length row,
in both `DataRaw::from_csv_row` and `ProfRaw::from_csv_row`. -/
theorem c1_odd_row_decoders_out_of_bounds (row : String)
    (h : (splitCSV row).length % 2 = 1) :
    DataRaw.from_csv_row row = none ∧ ProfRaw.from_csv_row row = none :=
  ⟨dataDecodeTokens_odd (splitCSV row) {} h,
   profDecodeTokens_odd (splitCSV row) {} h⟩

/-- C1 witness: the one-token row `MO` has odd length and both decoders
hit the out-of-bounds read on it. -/
theorem c1_odd_row_decoders_out_of_bounds_witness :
    DataRaw.from_csv_row "MO" = none ∧ ProfRaw.from_csv_row "MO" = none :=
  c1_odd_row_decoders_out_of_bounds "MO" (by decide)

/-- C2: the claim states that an unparseable birth date makes only that
one user's record fail, the load of other pairs continuing.  In the
source `UserMeasurements::from_raw` calls
`Profile::from_raw(raw.profile).unwrap()`, so an unparseable birth date
panics — the `none` outcome here — terminating the whole process instead
of omitting the record. -/
theorem c2_unparseable_profile_is_panic (raw : RawUserRecord)
    (h : Date.from_string raw.profile.birth_date_dmy = none) :
    Profile.from_raw raw.profile = none ∧ UserMeasurements.from_raw raw = none := by
  have hp : Profile.from_raw raw.profile = none := by
    rw [Profile.from_raw, h]
    rfl
  refine ⟨hp, ?_⟩
  rw [UserMeasurements.from_raw, hp]
  rfl

/-- C2 witness: a record whose profile has the unparseable birth date
`not-a-date` drives the load of that user into the panic. -/
theorem c2_unparseable_profile_is_panic_witness :
    Profile.from_raw badRecord.profile = none ∧
    UserMeasurements.from_raw badRecord = none :=
  c2_unparseable_profile_is_panic badRecord (by decide)

/-- C3: the claim states that a missing `SYSTEM` or `DATA` subdirectory
fails the load with a `MissingDir` error value returned to the caller
without terminating the process.  `require_dir` does build exactly that
error value naming the missing directory, but `get_raw_users_records`
immediately `.unwrap()`s it, so the load panics — the `none` outcome —
instead of returning the error to its caller. -/
theorem c3_missing_dir_error_is_unwrapped (root : RootDir) :
    (lookupDir root DATA_FOLDER_NAME = none →
      TanitaParser.require_dir root DATA_FOLDER_NAME
        = Except.error (TanitaValidationError.MissingDir DATA_FOLDER_NAME) ∧
      TanitaParser.get_raw_users_records root = none) ∧
    (lookupDir root PROFILE_FOLDER_NAME = none →
      TanitaParser.require_dir root PROFILE_FOLDER_NAME
        = Except.error (TanitaValidationError.MissingDir PROFILE_FOLDER_NAME) ∧
      TanitaParser.get_raw_users_records root = none) := by
  constructor
  · intro h
    have hr : TanitaParser.require_dir root DATA_FOLDER_NAME
        = Except.error (TanitaValidationError.MissingDir DATA_FOLDER_NAME) := by
      rw [TanitaParser.require_dir, h]
    refine ⟨hr, ?_⟩
    rw [TanitaParser.get_raw_users_records, hr]
    rfl
  · intro h
    have hr : TanitaParser.require_dir root PROFILE_FOLDER_NAME
        = Except.error (TanitaValidationError.MissingDir PROFILE_FOLDER_NAME) := by
      rw [TanitaParser.require_dir, h]
    refine ⟨hr, ?_⟩
    rw [TanitaParser.get_raw_users_records]
    cases hd : unwrapResult (TanitaParser.require_dir root DATA_FOLDER_NAME) with
    | none => rfl
    | some dl =>
        rw [Option.some_bind', hr]
        rfl

/-- C3 witness: a root holding only `SYSTEM` makes `require_dir` produce
`MissingDir "DATA"` and makes the whole load panic. -/
theorem c3_missing_dir_error_is_unwrapped_witness :
    TanitaParser.require_dir rootMissingData DATA_FOLDER_NAME
      = Except.error (TanitaValidationError.MissingDir DATA_FOLDER_NAME) ∧
    TanitaParser.get_raw_users_records rootMissingData = none :=
  (c3_missing_dir_error_is_unwrapped rootMissingData).1 (by decide)

/-- C4 counterexample: the claim states that formatting a parsed date
yields an equivalent normalized `d/m/y` string.  Parsing `14/06/1991`
yields the date 14 June 1991, but `Date::to_srting` prints
`years/months/days`: the output `1991/6/14` is not the normalized
`d/m/y` string `14/6/1991`, and feeding it back to the parser yields
`none` (1991 does not fit the u8 day field), so the output is not
`d/m/y`-equivalent under any reading. -/
theorem c4_counterexample :
    Date.from_string "14/06/1991" = some ⟨1991, 6, 14⟩ ∧
    Date.to_srting ⟨1991, 6, 14⟩ = "1991/6/14" ∧
    specDmyNormalized ⟨1991, 6, 14⟩ = "14/6/1991" ∧
    Date.to_srting ⟨1991, 6, 14⟩ ≠ specDmyNormalized ⟨1991, 6, 14⟩ ∧
    Date.from_string (Date.to_srting ⟨1991, 6, 14⟩) = none := by
  decide

/-- C4 amended: for every string of the form `d/m/y` with exactly three
components parseable as u8/u8/u16, parsing succeeds and formatting the
resulting date yields the normalized string with the components in
`y/m/d` order (the source's `to_srting` prints years/months/days); for
every input whose component count is 2 or at least 4, parsing yields
`none`, never a runtime fault. -/
theorem c4_date_parse_format_amended (s d m y : String) (dv mv yv : Nat) :
    (splitStr '/' (trimMatchesQuote s) = [d, m, y] →
      parseU8? d = some dv → parseU8? m = some mv → parseU16? y = some yv →
      Date.from_string s = some ⟨yv, mv, dv⟩ ∧
      Date.to_srting ⟨yv, mv, dv⟩
        = toString yv ++ "/" ++ toString mv ++ "/" ++ toString dv) ∧
    ((splitStr '/' (trimMatchesQuote s)).length = 2 ∨
        4 ≤ (splitStr '/' (trimMatchesQuote s)).length →
      Date.from_string s = none) := by
  constructor
  · intro hsplit hd hm hy
    refine ⟨?_, rfl⟩
    rw [Date.from_string, hsplit]
    simp only [hd, hm, hy]
  · intro hlen
    have hne : (splitStr '/' (trimMatchesQuote s)).length ≠ 3 := by
      rcases hlen with h | h <;> omega
    rw [Date.from_string]
    cases hs : splitStr '/' (trimMatchesQuote s) with
    | nil => rfl
    | cons a as =>
        cases as with
        | nil => rfl
        | cons b bs =>
            cases bs with
            | nil => rfl
            | cons c cs =>
                cases cs with
                | nil =>
                    rw [hs] at hne
                    simp at hne
                | cons e es => rfl

/-- C4 amended witness: `14/06/1991` parses and formats to `1991/6/14`,
while the 2-component `1/2` and the 4-component `1/2/3/4` yield `none`. -/
theorem c4_date_parse_format_amended_witness :
    Date.from_string "14/06/1991" = some ⟨1991, 6, 14⟩ ∧
    Date.to_srting ⟨1991, 6, 14⟩ = "1991/6/14" ∧
    Date.from_string "1/2" = none ∧
    Date.from_string "1/2/3/4" = none := by
  refine ⟨?_, by decide, ?_, ?_⟩
  · exact ((c4_date_parse_format_amended "14/06/1991" "14" "06" "1991" 14 6 1991).1
      (by decide) (by decide) (by decide) (by decide)).1
  · exact (c4_date_parse_format_amended "1/2" "" "" "" 0 0 0).2 (Or.inl (by decide))
  · exact (c4_date_parse_format_amended "1/2/3/4" "" "" "" 0 0 0).2 (Or.inr (by decide))

/-- C5: when a profile index has no matching index in the data mapping,
the pairing loop indexes the data `BTreeMap` with the missing key and the
whole load fails — the fatal policy, applied at every unmatched index
(the other claimed alternative, omitting the index, never happens). -/
theorem c5_unmatched_profile_index_is_fatal (root : RootDir)
    (dl sl : List FileEntry)
    (hD : lookupDir root DATA_FOLDER_NAME = some dl)
    (hS : lookupDir root PROFILE_FOLDER_NAME = some sl)
    (idx : Nat) (e : FileEntry)
    (hProf : btreeLookup (TanitaParser.collect_files sl) idx = some e)
    (hData : btreeLookup (TanitaParser.collect_files dl) idx = none) :
    TanitaParser.get_raw_users_records root = none := by
  have hreqD : unwrapResult (TanitaParser.require_dir root DATA_FOLDER_NAME)
      = some dl := by
    rw [TanitaParser.require_dir, hD]
    rfl
  have hreqS : unwrapResult (TanitaParser.require_dir root PROFILE_FOLDER_NAME)
      = some sl := by
    rw [TanitaParser.require_dir, hS]
    rfl
  have hpairs : TanitaParser.buildPairs (TanitaParser.collect_files sl)
      (TanitaParser.collect_files dl) = none := by
    apply optMapM_eq_none_of_mem _ _ (idx, e) (btreeLookup_mem hProf)
    rw [hData]
  rw [TanitaParser.get_raw_users_records, hreqD, Option.some_bind', hreqS,
    Option.some_bind', hpairs]
  rfl

/-- C5 witness: with `SYSTEM/PROF3.CSV` present and the `DATA` directory
empty, index 3 is unmatched and the whole load fails. -/
theorem c5_unmatched_profile_index_is_fatal_witness :
    TanitaParser.get_raw_users_records rootUnpaired = none :=
  c5_unmatched_profile_index_is_fatal rootUnpaired [] [("PROF3.CSV", "MO,X")]
    (by decide) (by decide) 3 ("PROF3.CSV", "MO,X") (by decide) (by decide)

/-- C6: on a row with an even token count the decode succeeds and each
optional field of the decoded record is present exactly when its key
occurs among the tokens the decoder reads as keys, regardless of whether
the paired value parses. -/
theorem c6_optional_present_iff_key (row : String)
    (h : (splitCSV row).length % 2 = 0) :
    ∃ r, DataRaw.from_csv_row row = some r ∧
      (r.muscle_percent.isSome ↔ "mW" ∈ rowKeys row) ∧
      (r.muscle_right_arm_pct.isSome ↔ "mr" ∈ rowKeys row) ∧
      (r.muscle_left_arm_pct.isSome ↔ "ml" ∈ rowKeys row) ∧
      (r.muscle_right_leg_pct.isSome ↔ "mR" ∈ rowKeys row) ∧
      (r.muscle_left_leg_pct.isSome ↔ "mL" ∈ rowKeys row) ∧
      (r.muscle_trunk_pct.isSome ↔ "mT" ∈ rowKeys row) ∧
      (r.bone_kg.isSome ↔ "bw" ∈ rowKeys row) ∧
      (r.water_percent.isSome ↔ "ww" ∈ rowKeys row) ∧
      (r.visceral_fat_rating.isSome ↔ "IF" ∈ rowKeys row) ∧
      (r.metabolic_age_years.isSome ↔ "rA" ∈ rowKeys row) ∧
      (r.daily_calorie_intake_kcal.isSome ↔ "rD" ∈ rowKeys row) := by
  refine ⟨applyPairsD (pairsOf (splitCSV row)) {},
    dataDecodeTokens_even (splitCSV row) {} h,
    ?_, ?_, ?_, ?_, ?_, ?_, ?_, ?_, ?_, ?_, ?_⟩
  · simpa [rowKeys] using applyPairsD_isSome _ "mW" _
      DataRaw.applyKV_muscle_percent (pairsOf (splitCSV row)) {}
  · simpa [rowKeys] using applyPairsD_isSome _ "mr" _
      DataRaw.applyKV_muscle_right_arm_pct (pairsOf (splitCSV row)) {}
  · simpa [rowKeys] using applyPairsD_isSome _ "ml" _
      DataRaw.applyKV_muscle_left_arm_pct (pairsOf (splitCSV row)) {}
  · simpa [rowKeys] using applyPairsD_isSome _ "mR" _
      DataRaw.applyKV_muscle_right_leg_pct (pairsOf (splitCSV row)) {}
  · simpa [rowKeys] using applyPairsD_isSome _ "mL" _
      DataRaw.applyKV_muscle_left_leg_pct (pairsOf (splitCSV row)) {}
  · simpa [rowKeys] using applyPairsD_isSome _ "mT" _
      DataRaw.applyKV_muscle_trunk_pct (pairsOf (splitCSV row)) {}
  · simpa [rowKeys] using applyPairsD_isSome _ "bw" _
      DataRaw.applyKV_bone_kg (pairsOf (splitCSV row)) {}
  · simpa [rowKeys] using applyPairsD_isSome _ "ww" _
      DataRaw.applyKV_water_percent (pairsOf (splitCSV row)) {}
  · simpa [rowKeys] using applyPairsD_isSome _ "IF" _
      DataRaw.applyKV_visceral_fat_rating (pairsOf (splitCSV row)) {}
  · simpa [rowKeys] using applyPairsD_isSome _ "rA" _
      DataRaw.applyKV_metabolic_age_years (pairsOf (splitCSV row)) {}
  · simpa [rowKeys] using applyPairsD_isSome _ "rD" _
      DataRaw.applyKV_daily_calorie_intake_kcal (pairsOf (splitCSV row)) {}

/-- C6 witness: the row `IF,7` decodes with visceral fat rating
present(7) and metabolic age absent, and `IF,xyz` still marks the field
present, as present(0). -/
theorem c6_optional_present_iff_key_witness :
    ((DataRaw.from_csv_row "IF,7").map
        (fun r => (r.visceral_fat_rating, r.metabolic_age_years))
      = some (some 7, none)) ∧
    ((DataRaw.from_csv_row "IF,xyz").map (fun r => r.visceral_fat_rating)
      = some (some 0)) ∧
    (∃ r, DataRaw.from_csv_row "IF,7" = some r ∧ r.visceral_fat_rating.isSome) := by
  refine ⟨by decide, by decide, ?_⟩
  obtain ⟨r, hr, _, _, _, _, _, _, _, _, hIF, _, _⟩ :=
    c6_optional_present_iff_key "IF,7" (by decide)
  exact ⟨r, hr, hIF.mpr (by decide)⟩

/-- C7: when the profile parses, the user's measurement sequence is
exactly the in-order conversion of the raw data records, each record
whose date or time fails to parse being skipped on its own while every
other record is kept in its original order; and a measurement conversion
fails exactly when the raw date/time pair does not parse. -/
theorem c7_bad_measurement_skipped_alone (raw : RawUserRecord) (p : Profile)
    (hp : Profile.from_raw raw.profile = some p) :
    UserMeasurements.from_raw raw
      = some { index := raw.index, profile := p,
               measurements := raw.data.filterMap Measurement.from_raw } ∧
    ∀ d : DataRaw, (Measurement.from_raw d).isNone
      ↔ (DateTime.from_string d.date_dmy d.time_hms).isNone := by
  refine ⟨?_, Measurement.from_raw_isNone⟩
  rw [UserMeasurements.from_raw, hp]
  simp [buildMeasurements_eq_filterMap]

/-- C7 witness: a record with a parseable profile and three raw
measurements, the middle one with an unparseable time, keeps exactly the
first and third measurements, in order. -/
theorem c7_bad_measurement_skipped_alone_witness :
    UserMeasurements.from_raw mixedRecord
      = some { index := mixedRecord.index, profile := mixedProfile,
               measurements := mixedRecord.data.filterMap Measurement.from_raw } ∧
    (mixedRecord.data.filterMap Measurement.from_raw).length = 2 ∧
    mixedRecord.data.length = 3 ∧
    Measurement.from_raw badDataB = none :=
  ⟨(c7_bad_measurement_skipped_alone mixedRecord mixedProfile (by decide)).1,
   by decide, by decide, by decide⟩

/-- C8: the primitive scalar parsers are total: whenever the underlying
parse fails they return the type's zero value, and whenever it succeeds
they return its value — they never fail outward. -/
theorem c8_primitive_parsers_total (s : String) :
    (parseU8? s = none → TanitaParser.parse_u8 s = 0) ∧
    (∀ n, parseU8? s = some n → TanitaParser.parse_u8 s = n) ∧
    (parseU16? s = none → TanitaParser.parse_u16 s = 0) ∧
    (∀ n, parseU16? s = some n → TanitaParser.parse_u16 s = n) ∧
    (parseF32? s = none → TanitaParser.parse_f32 s = 0) ∧
    (∀ q, parseF32? s = some q → TanitaParser.parse_f32 s = q) := by
  refine ⟨fun h => ?_, fun n h => ?_, fun h => ?_, fun n h => ?_,
    fun h => ?_, fun q h => ?_⟩
  · rw [TanitaParser.parse_u8, h]; rfl
  · rw [TanitaParser.parse_u8, h]; rfl
  · rw [TanitaParser.parse_u16, h]; rfl
  · rw [TanitaParser.parse_u16, h]; rfl
  · rw [TanitaParser.parse_f32, h]; rfl
  · rw [TanitaParser.parse_f32, h]; rfl

/-- C8 witness: the non-numeric `abc` and the out-of-range `300` fall
back to zero for u8, while u16 still accepts 300; a non-numeric float
token falls back to zero as well. -/
theorem c8_primitive_parsers_total_witness :
    TanitaParser.parse_u8 "abc" = 0 ∧
    TanitaParser.parse_u8 "300" = 0 ∧
    TanitaParser.parse_u16 "300" = 300 ∧
    TanitaParser.parse_f32 "xyz" = 0 :=
  ⟨(c8_primitive_parsers_total "abc").1 (by decide),
   (c8_primitive_parsers_total "300").1 (by decide),
   (c8_primitive_parsers_total "300").2.2.2.1 300 (by decide),
   (c8_primitive_parsers_total "xyz").2.2.2.2.1 (by decide)⟩

/-- C9 counterexample: the claim states that the `SYSTEM` directory is
matched against the profile prefix.  The source's `get_index`, which
`collect_files` applies to every directory including `SYSTEM`, first
tries the data prefix: the name `DATA3.CSV` — which does not match
`PROF<digits>.CSV` — is indexed as 3, so a data-named file inside
`SYSTEM` enters the profile mapping. -/
theorem c9_counterexample :
    TanitaParser.get_index "DATA3.CSV" = some 3 ∧
    TanitaParser.collect_files [("DATA3.CSV", "AG,30")]
      = [(3, ("DATA3.CSV", "AG,30"))] ∧
    specPrefixMatch "PROF" "DATA3.CSV" = false := by
  decide

/-- C9 amended: index extraction is case-insensitive (names equal up to
ASCII case get the same index) and accepts either the data prefix or the
profile prefix in both directories, since the same extractor serves both;
on a duplicate index, the entry processed last wins; the spec's concrete
example (`PROF1.CSV`, `prof2.csv` against `DATA1.CSV`, `DATA2.CSV`)
yields exactly the two pairs with indices 1 and 2. -/
theorem c9_index_extraction_amended (s t : String)
    (hcase : asciiUppercase s = asciiUppercase t)
    (entries : List FileEntry) (n c : String) (i : Nat)
    (hn : TanitaParser.get_index n = some i) :
    TanitaParser.get_index s = TanitaParser.get_index t ∧
    btreeLookup (TanitaParser.collect_files (entries ++ [(n, c)])) i
      = some (n, c) ∧
    (TanitaParser.get_raw_users_records exampleRoot).map
        (fun rs => rs.map (fun r => r.index)) = some [1, 2] := by
  refine ⟨?_, ?_, by decide⟩
  · rw [TanitaParser.get_index, TanitaParser.get_index, hcase]
  · rw [TanitaParser.collect_files, List.foldl_append]
    simp only [List.foldl_cons, List.foldl_nil, hn]
    exact btreeLookup_insert_self i (n, c) _

/-- C9 amended witness: `prof2.csv` and `PROF2.CSV` get the same index,
a later `DATA3.CSV` entry overwrites an earlier `data3.csv` binding for
index 3, and the spec's example root pairs to indices 1 and 2. -/
theorem c9_index_extraction_amended_witness :
    TanitaParser.get_index "prof2.csv" = TanitaParser.get_index "PROF2.CSV" ∧
    btreeLookup (TanitaParser.collect_files
        ([("data3.csv", "old")] ++ [("DATA3.CSV", "new")])) 3
      = some ("DATA3.CSV", "new") ∧
    (TanitaParser.get_raw_users_records exampleRoot).map
        (fun rs => rs.map (fun r => r.index)) = some [1, 2] :=
  c9_index_extraction_amended "prof2.csv" "PROF2.CSV" (by decide)
    [("data3.csv", "old")] "DATA3.CSV" "new" 3 (by decide)

/-- C10: the per-pair loader decodes only the first line of the profile
file, reached by indexing element 0 of the collected line list: when the
content has at least one line the result depends only on that first line
(and on the data file), and when the line list is empty — as it is for
empty content — the out-of-range index is reached, modelled as `none`. -/
theorem c10_first_profile_line_only (pair : TanitaPair) :
    (rustLines pair.profile.2 = [] → TanitaParser.buildRecord pair = none) ∧
    (∀ l rest, rustLines pair.profile.2 = l :: rest →
      TanitaParser.buildRecord pair
        = (ProfRaw.from_csv_row l).bind (fun profile =>
            (optMapM DataRaw.from_csv_row (rustLines pair.data.2)).map
              (fun data =>
                { index := pair.index, profile := profile, data := data }))) ∧
    rustLines "" = [] := by
  refine ⟨?_, ?_, rfl⟩
  · intro h
    rw [TanitaParser.buildRecord, h]
    rfl
  · intro l rest h
    rw [TanitaParser.buildRecord, h]
    rfl

/-- C10 witness: a pair whose profile file content is empty drives the
loader into the out-of-range index. -/
theorem c10_first_profile_line_only_witness :
    TanitaParser.buildRecord ⟨1, ("PROF1.CSV", ""), ("DATA1.CSV", "AG,30")⟩
      = none :=
  (c10_first_profile_line_only ⟨1, ("PROF1.CSV", ""), ("DATA1.CSV", "AG,30")⟩).1
    (by decide)

end Tanita
